import Mathlib

/-!
Verification development for the Dynamic-2DGS mesh-extraction driver.

The development shallowly embeds the two source files
(render_mesh_trajectory.py and utils/mesh_utils.py): pure computations
become Lean functions over exact rationals, Python in-place mutation
becomes explicit state passing, and calls that can raise become Option
results.  External library routines (torch, numpy, open3d, imageio) that
the scripts merely delegate to are taken as parameters or modelled by
their documented input/output behaviour; everything the repository itself
computes is translated directly from the Python source.
-/

set_option autoImplicit false

/-! ## Script-level argument handling (render_mesh_trajectory.py) -/

/-- Command-line arguments of render_mesh_trajectory.py that feed the
mesh-export loop, as produced by the argument parser. -/
structure ScriptArgs where
  voxel_size : ℚ
  depth_trunc : ℚ
  num_cluster : ℕ
  unbounded : Bool
  mesh_res : ℕ
  deriving DecidableEq

/-- Embedding of the statement `args.depth_trunc = 6` that the script runs
unconditionally right after `get_combined_args(parser)` returns. -/
def post_parse_override (a : ScriptArgs) : ScriptArgs :=
  { a with depth_trunc := 6 }

/-- The value the script passes as `depth_trunc=` to extract_mesh_bounded:
the depth_trunc field of the overridden argument record. -/
def mesh_call_depth_trunc (a : ScriptArgs) : ℚ :=
  (post_parse_override a).depth_trunc

/-! ## Python keyword-call acceptance (for the post_process_mesh call) -/

/-- A Python function accepts a keyword argument exactly when the keyword
names one of its declared parameters (post_process_mesh declares no
`**kwargs` catch-all). -/
def accepts_keyword (param_names : List String) (kw : String) : Bool :=
  param_names.contains kw

/-- Parameter names of `def post_process_mesh(mesh, num_triangles_to_keep=100)`
in utils/mesh_utils.py. -/
def post_process_mesh_param_names : List String :=
  ["mesh", "num_triangles_to_keep"]

/-- The keyword the mesh-export loop of render_mesh_trajectory.py passes in
`post_process_mesh(mesh, cluster_to_keep=args.num_cluster)`. -/
def script_post_process_call_keyword : String :=
  "cluster_to_keep"

/-! ## Methods defined on GaussianExtractor (utils/mesh_utils.py) -/

/-- Names of the methods the class body of GaussianExtractor actually
defines.  The extract_mesh_unbounded block (lines 287-470 of
utils/mesh_utils.py) is commented out in its entirety, so no such method
is defined on the class. -/
def gaussian_extractor_method_names : List String :=
  ["__init__", "clean", "reconstruction", "extract_mesh_bounded",
   "export_image"]

/-- The attribute the script looks up on the extractor when the
`--unbounded` flag is set. -/
def unbounded_branch_method_name : String :=
  "extract_mesh_unbounded"

/-! ## Observable file/console effects of one mesh-export iteration -/

/-- Python `str.zfill` for the non-negative decimal strings the script
produces: pad on the left with the digit 0 up to the requested width. -/
def zfill (width : ℕ) (s : String) : String :=
  if width ≤ s.length then s
  else String.mk (List.replicate (width - s.length) '0') ++ s

/-- One observable output action of the driver script. -/
inductive ScriptEffect where
  | printMsg (msg : String)
  | writeImage (path : String)
  | writeTriangleMesh (path : String)
  deriving DecidableEq

/-- Whether an effect writes a triangle mesh to disk. -/
def ScriptEffect.isWriteMesh : ScriptEffect → Bool
  | .writeTriangleMesh _ => true
  | _ => false

/-- Effect trace of the tail of one iteration of the mesh-export loop of
render_mesh_trajectory.py, from the post_process_mesh call site to the
per-frame image writes (source lines 337-401): the script prints the
`mesh post processed saved at` message for `frame_i.ply` and writes the
two PNG renderings, while both `o3d.io.write_triangle_mesh` calls remain
commented out, so no mesh-write effect occurs. -/
def frame_save_effects (train_dir images_save_path meshshape_save_path :
    String) (i : ℕ) : List ScriptEffect :=
  [ .printMsg ("mesh post processed saved at " ++ train_dir ++ "/frame_"
      ++ toString i ++ ".ply"),
    .printMsg "save images",
    .writeImage (images_save_path ++ "/" ++ zfill 5 (toString i) ++ ".png"),
    .printMsg "save images",
    .writeImage (meshshape_save_path ++ "/" ++ zfill 5 (toString i)
      ++ ".png") ]

/-! ## Video assembly after the mesh-export loop -/

/-- A video file as assembled through imageio: output name, frame rate and
the appended frames in order. -/
structure VideoFile (Img : Type) where
  name : String
  fps : ℕ
  frames : List Img

/-- Embedding of the final block of render_mesh_trajectory.py: the script
reads, for k ranging over the number of entries of the mesh_shape
directory, the image named `str(k).zfill(5) + ".png"` in that directory,
and appends the images in ascending k order to output_video.mp4 at 25
frames per second.  `read_image` stands for `imageio.imread` and
`dir_files` for the `os.listdir` result. -/
def assemble_video {Img : Type} (read_image : String → Img)
    (meshshape_save_path : String) (dir_files : List String) :
    VideoFile Img :=
  { name := "output_video.mp4",
    fps := 25,
    frames := (List.range dir_files.length).map (fun k =>
      read_image (meshshape_save_path ++ "/" ++ zfill 5 (toString k)
        ++ ".png")) }

/-! ## Cameras and the open3d pinhole conversion (to_cam_open3d) -/

/-- The camera attributes read by mesh_utils.py.  Image planes are stored
channel-first as lists of per-channel pixel lists with exact rational
values. -/
structure Camera where
  image_width : ℕ
  image_height : ℕ
  FoVx : ℚ
  FoVy : ℚ
  world_view_transform : List (List ℚ)
  gt_alpha_mask : Option (List (List ℚ))
  deriving DecidableEq, Inhabited

/-- An open3d pinhole intrinsic record as built by to_cam_open3d. -/
structure PinholeCameraIntrinsic where
  width : ℕ
  height : ℕ
  cx : ℚ
  cy : ℚ
  fx : ℚ
  fy : ℚ
  deriving DecidableEq, Inhabited

/-- An open3d camera-parameter record: intrinsic plus extrinsic matrix. -/
structure PinholeCameraParameters where
  intrinsic : PinholeCameraIntrinsic
  extrinsic : List (List ℚ)
  deriving DecidableEq

/-- Body of the to_cam_open3d loop for one camera.  The parameter `tan`
stands for math.tan, the one transcendental the conversion calls; the
extrinsic is the transpose of world_view_transform. -/
def cam_open3d (tan : ℚ → ℚ) (c : Camera) : PinholeCameraParameters :=
  { intrinsic :=
      { width := c.image_width,
        height := c.image_height,
        cx := (c.image_width : ℚ) / 2,
        cy := (c.image_height : ℚ) / 2,
        fx := (c.image_width : ℚ) / (2 * tan (c.FoVx / 2)),
        fy := (c.image_height : ℚ) / (2 * tan (c.FoVy / 2)) },
    extrinsic := c.world_view_transform.transpose }

/-- to_cam_open3d of utils/mesh_utils.py: convert every viewpoint camera,
in order, to open3d camera parameters. -/
def to_cam_open3d (tan : ℚ → ℚ) (viewpoint_stack : List Camera) :
    List PinholeCameraParameters :=
  viewpoint_stack.map (cam_open3d tan)

/-! ## Differentiable-rendering results and GaussianExtractor state -/

/-- The fields of the dictionary the external render call returns that
reconstruction reads.  Each entry is a channel-first image. -/
structure RenderResult where
  render : List (List ℚ)
  alpha : List (List ℚ)
  rend_normal : List (List ℚ)
  depth : List (List ℚ)
  surf_normal : List (List ℚ)
  deriving DecidableEq

/-- torch.clamp(x, 0.0, 1.0) on one value: min(max(x, 0), 1). -/
def clamp01 (x : ℚ) : ℚ := min (max x 0) 1

/-- Elementwise clamp of a channel-first image to the unit interval. -/
def clamp_image (img : List (List ℚ)) : List (List ℚ) :=
  img.map (fun ch => ch.map clamp01)

/-- The per-view buffers one iteration of the reconstruction loop appends
to the extractor state. -/
structure ViewBuffers where
  rgb : List (List ℚ)
  depth : List (List ℚ)
  alpha : List (List ℚ)
  normal : List (List ℚ)
  depth_normal : List (List ℚ)
  deriving DecidableEq

/-- Body of one reconstruction-loop iteration: run the external renderer
(`render_fn` bundles deform.step and the rasterizer call on the given
camera), concatenate the rgb channels with alpha, clamp to the unit
interval, keep the first three channels as rgb, normalize the rendered
normal through the external `normalize_fn`, and pass depth and surface
normal through. -/
def render_view (render_fn : Camera → RenderResult)
    (normalize_fn : List (List ℚ) → List (List ℚ)) (cam : Camera) :
    ViewBuffers :=
  let results := render_fn cam
  let alpha := results.alpha
  let rendering := clamp_image (results.render ++ alpha)
  let rgb := rendering.take 3
  let normal := normalize_fn results.rend_normal
  { rgb := rgb, depth := results.depth, alpha := alpha, normal := normal,
    depth_normal := results.surf_normal }

/-- Accumulated state of a GaussianExtractor: the buffer attributes set by
clean and filled by reconstruction. -/
structure GEState where
  depthmaps : List (List (List ℚ))
  alphamaps : List (List (List ℚ))
  rgbmaps : List (List (List ℚ))
  normals : List (List (List ℚ))
  depth_normals : List (List (List ℚ))
  points : List (List (List ℚ))
  viewpoint_stack : List Camera
  deriving DecidableEq

/-- The state GaussianExtractor.clean establishes: every buffer empty. -/
def cleanState : GEState :=
  { depthmaps := [], alphamaps := [], rgbmaps := [], normals := [],
    depth_normals := [], points := [], viewpoint_stack := [] }

/-- GaussianExtractor.clean: discards all accumulated buffers regardless
of the current state. -/
def GEState.clean (_self : GEState) : GEState := cleanState

/-- torch.stack along dimension 0: fails (RuntimeError) on an empty tensor
list, and otherwise yields the tensor whose slices along dimension 0 are
the listed tensors in order. -/
def torch_stack {α : Type} : List α → Option (List α)
  | [] => none
  | x :: xs => some (x :: xs)

/-- Append the buffers of one rendered view to the extractor state, in the
order the source appends them. -/
def recon_append (b : ViewBuffers) (s : GEState) : GEState :=
  { s with
    rgbmaps := s.rgbmaps ++ [b.rgb],
    depthmaps := s.depthmaps ++ [b.depth],
    alphamaps := s.alphamaps ++ [b.alpha],
    normals := s.normals ++ [b.normal],
    depth_normals := s.depth_normals ++ [b.depth_normal] }

/-- The reconstruction loop over the viewpoint stack, also recording the
trace of cameras passed to the external renderer, in call order. -/
def recon_loop (render_fn : Camera → RenderResult)
    (normalize_fn : List (List ℚ) → List (List ℚ)) :
    List Camera → GEState × List Camera → GEState × List Camera
  | [], acc => acc
  | cam :: rest, (s, trace) =>
      recon_loop render_fn normalize_fn rest
        (recon_append (render_view render_fn normalize_fn cam) s,
         trace ++ [cam])

/-- GaussianExtractor.reconstruction: clean the state, record the
viewpoint stack, render every camera in order appending its buffers, then
stack rgbmaps, depthmaps, alphamaps and depth_normals along dimension 0
(normals stays a plain list).  torch.stack raises on an empty list, which
the embedding reports as none. -/
def reconstruction (render_fn : Camera → RenderResult)
    (normalize_fn : List (List ℚ) → List (List ℚ)) (self : GEState)
    (viewpoint_stack : List Camera) : Option GEState :=
  let st0 := { self.clean with viewpoint_stack := viewpoint_stack }
  let st1 := (recon_loop render_fn normalize_fn viewpoint_stack
    (st0, [])).1
  match torch_stack st1.rgbmaps, torch_stack st1.depthmaps,
      torch_stack st1.alphamaps, torch_stack st1.depth_normals with
  | some r, some dm, some a, some dn =>
      some { st1 with
             rgbmaps := r
             depthmaps := dm
             alphamaps := a
             depth_normals := dn }
  | _, _, _, _ => none

/-- The cameras handed to the external renderer by one reconstruction
call, in call order. -/
def reconstruction_trace (render_fn : Camera → RenderResult)
    (normalize_fn : List (List ℚ) → List (List ℚ))
    (viewpoint_stack : List Camera) : List Camera :=
  (recon_loop render_fn normalize_fn viewpoint_stack
    ({ cleanState with viewpoint_stack := viewpoint_stack }, [])).2

/-- The state reconstruction ends in on a given camera list (meaningful
when the list is non-empty, so that the torch.stack calls succeed). -/
def recon_result (render_fn : Camera → RenderResult)
    (normalize_fn : List (List ℚ) → List (List ℚ))
    (cams : List Camera) : GEState :=
  { depthmaps := cams.map (fun c =>
      (render_view render_fn normalize_fn c).depth),
    alphamaps := cams.map (fun c =>
      (render_view render_fn normalize_fn c).alpha),
    rgbmaps := cams.map (fun c =>
      (render_view render_fn normalize_fn c).rgb),
    normals := cams.map (fun c =>
      (render_view render_fn normalize_fn c).normal),
    depth_normals := cams.map (fun c =>
      (render_view render_fn normalize_fn c).depth_normal),
    points := [],
    viewpoint_stack := cams }

/-- Concrete camera used to instantiate the theorems about reconstruction
and mesh extraction on a one-pixel image. -/
def camA : Camera :=
  { image_width := 1, image_height := 1, FoVx := 1, FoVy := 1,
    world_view_transform := [[1, 0], [0, 1]],
    gt_alpha_mask := some [[1]] }

/-- Concrete renderer result used by the witnesses: a one-pixel image with
rgb channels 2, -1 and 1/2 and alpha 1. -/
def rrA : RenderResult :=
  { render := [[2], [-1], [1/2]], alpha := [[1]],
    rend_normal := [[0], [0], [1]], depth := [[3]],
    surf_normal := [[0], [0], [1]] }

/-! ## TSDF volume integration (extract_mesh_bounded) -/

/-- Color layout of the open3d TSDF volume; extract_mesh_bounded always
selects RGB8. -/
inductive TSDFVolumeColorType where
  | RGB8
  deriving DecidableEq

/-- An open3d RGBD frame as built by create_from_color_and_depth: the
8-bit color image, the float depth image, and the conversion options the
call fixes.  The source permutes both images from channel-first to
channel-last before the call, which reorders storage but not pixel
values; the embedding keeps the channel-first view of the same values. -/
structure RGBDImage where
  color : List (List ℕ)
  depth : List (List ℚ)
  depth_trunc : ℚ
  depth_scale : ℚ
  convert_rgb_to_intensity : Bool
  deriving DecidableEq, Inhabited

/-- One volume.integrate call: the RGBD frame with the intrinsic and
extrinsic it is integrated under. -/
structure IntegrationRecord where
  rgbd : RGBDImage
  intrinsic : PinholeCameraIntrinsic
  extrinsic : List (List ℚ)
  deriving DecidableEq, Inhabited

/-- A ScalableTSDFVolume: its construction parameters together with the
sequence of integrate calls it has received. -/
structure ScalableTSDFVolume where
  voxel_length : ℚ
  sdf_trunc : ℚ
  color_type : TSDFVolumeColorType
  integrations : List IntegrationRecord
  deriving DecidableEq

/-- volume.integrate appends one integration record. -/
def ScalableTSDFVolume.integrate (v : ScalableTSDFVolume)
    (r : IntegrationRecord) : ScalableTSDFVolume :=
  { v with integrations := v.integrations ++ [r] }

/-- numpy cast to uint8 of a scaled clamped channel value: multiply by
255 and truncate, wrapping into 8 bits. -/
def to_u8 (x : ℚ) : ℕ := (⌊x * 255⌋).toNat % 256

/-- The 8-bit color image np.asarray(rgb * 255, dtype=np.uint8). -/
def to_u8_image (img : List (List ℚ)) : List (List ℕ) :=
  img.map (fun ch => ch.map to_u8)

/-- One pixel of the in-place masking `depth[mask < 0.5] = 0`. -/
def mask_pixel (m x : ℚ) : ℚ := if m < 1/2 then 0 else x

/-- The in-place masking of a whole depth image by gt_alpha_mask. -/
def mask_depth (mask depth : List (List ℚ)) : List (List ℚ) :=
  List.zipWith (fun mch dch => List.zipWith mask_pixel mch dch) mask depth

/-- The depth image extract_mesh_bounded stores back and integrates for
one view: masked when mask_backgrond is set and the camera carries a
gt_alpha_mask, otherwise untouched. -/
def masked_depth (mask_backgrond : Bool) (cam : Camera)
    (depth : List (List ℚ)) : List (List ℚ) :=
  if mask_backgrond then
    match cam.gt_alpha_mask with
    | some m => mask_depth m depth
    | none => depth
  else depth

/-- The integration record one loop iteration of extract_mesh_bounded
feeds to volume.integrate: the scaled 8-bit rgb and the current depth at
depth_scale 1 without intensity conversion, under the open3d camera of
the view. -/
def integration_record (tan : ℚ → ℚ) (depth_trunc : ℚ) (cam : Camera)
    (rgb newdepth : List (List ℚ)) : IntegrationRecord :=
  { rgbd :=
      { color := to_u8_image rgb,
        depth := newdepth,
        depth_trunc := depth_trunc,
        depth_scale := 1,
        convert_rgb_to_intensity := false },
    intrinsic := (cam_open3d tan cam).intrinsic,
    extrinsic := (cam_open3d tan cam).extrinsic }

/-- The extract_mesh_bounded loop over (camera, rgb, depth) triples:
masks the depth in place, integrates the frame, and returns the final
volume together with the mutated stored depth maps. -/
def tsdf_loop (tan : ℚ → ℚ) (depth_trunc : ℚ) (mask_backgrond : Bool) :
    List (Camera × List (List ℚ) × List (List ℚ)) → ScalableTSDFVolume →
    ScalableTSDFVolume × List (List (List ℚ))
  | [], vol => (vol, [])
  | (cam, rgb, d) :: rest, vol =>
      let d2 := masked_depth mask_backgrond cam d
      let vol2 := vol.integrate
        (integration_record tan depth_trunc cam rgb d2)
      let res := tsdf_loop tan depth_trunc mask_backgrond rest vol2
      (res.1, d2 :: res.2)

/-- GaussianExtractor.extract_mesh_bounded: build a ScalableTSDFVolume
from voxel_size and sdf_trunc with RGB8 color, integrate every view of
the viewpoint stack in order (mutating the stored depth maps in place
when masking applies), and return the triangle mesh extracted from the
volume together with the extractor state after the call.  The parameter
`extract_fn` stands for the external volume.extract_triangle_mesh. -/
def extract_mesh_bounded {M : Type} (extract_fn : ScalableTSDFVolume → M)
    (tan : ℚ → ℚ) (voxel_size sdf_trunc depth_trunc : ℚ)
    (mask_backgrond : Bool) (self : GEState) : M × GEState :=
  let vol0 : ScalableTSDFVolume :=
    { voxel_length := voxel_size, sdf_trunc := sdf_trunc,
      color_type := .RGB8, integrations := [] }
  let res := tsdf_loop tan depth_trunc mask_backgrond
    (self.viewpoint_stack.zip (self.rgbmaps.zip self.depthmaps)) vol0
  (extract_fn res.1, { self with depthmaps := res.2 })

/-! ## Mesh post-processing (post_process_mesh) -/

/-- A triangle mesh as manipulated by post_process_mesh: vertex positions
and vertex-index triangles. -/
structure TriangleMesh where
  vertices : List (ℚ × ℚ × ℚ)
  triangles : List (ℕ × ℕ × ℕ)
  deriving DecidableEq, Inhabited

/-- open3d remove_triangles_by_mask: drop exactly the triangles whose
mask entry is true, keeping the rest in order. -/
def remove_triangles_by_mask {α : Type} (tris : List α)
    (mask : List Bool) : List α :=
  ((tris.zip mask).filter (fun p => !p.2)).map Prod.fst

/-- post_process_mesh of utils/mesh_utils.py.  `cluster_fn` stands for
the external mesh_0.cluster_connected_triangles() call and returns the
per-triangle cluster ids and the per-cluster triangle counts (the
cluster-area array the source also unpacks is never used);
`remove_unreferenced_fn` and `remove_degenerate_fn` stand for the
external remove_unreferenced_vertices and remove_degenerate_triangles
calls.  The function deep-copies its argument and mutates only the
copy, so the pair returned is (the caller-visible argument object after
the call, the post-processed mesh). -/
def post_process_mesh
    (cluster_fn : List (ℕ × ℕ × ℕ) → List ℕ × List ℕ)
    (remove_unreferenced_fn remove_degenerate_fn :
      TriangleMesh → TriangleMesh)
    (mesh : TriangleMesh) (num_triangles_to_keep : ℕ) :
    TriangleMesh × TriangleMesh :=
  let mesh_0 := mesh
  let triangle_clusters := (cluster_fn mesh_0.triangles).1
  let cluster_n_triangles := (cluster_fn mesh_0.triangles).2
  let triangles_to_remove := triangle_clusters.map (fun c =>
    decide (cluster_n_triangles.getD c 0 < num_triangles_to_keep))
  let mesh_1 :=
    { mesh_0 with
      triangles :=
        remove_triangles_by_mask mesh_0.triangles triangles_to_remove }
  let mesh_2 := remove_degenerate_fn (remove_unreferenced_fn mesh_1)
  (mesh, mesh_2)

/-- Concrete mesh for the post_process_mesh witness: one component of two
triangles. -/
def meshW : TriangleMesh :=
  { vertices := [(0, 0, 0), (1, 0, 0), (0, 1, 0), (1, 1, 0)],
    triangles := [(0, 1, 2), (1, 3, 2)] }

/-- Concrete clustering for the witness: both triangles in cluster 0,
which has two triangles. -/
def cfW : List (ℕ × ℕ × ℕ) → List ℕ × List ℕ :=
  fun _ => ([0, 0], [2])

/-- The concrete post-reconstruction state used by the witnesses: buffers
of one view rendered from camA with rrA. -/
def selfA : GEState := recon_result (fun _ => rrA) id [camA]

/-- The integration record the specification describes for one view:
written from the spec words, for comparison with the integration_record
the code builds.  It pairs the 8-bit-scaled rgb map and the stored depth
map with pinhole intrinsics cx = W/2, cy = H/2, fx = W/(2 tan(FoVx/2)),
fy = H/(2 tan(FoVy/2)) and the camera extrinsics (the transposed
world-view transform), using depth_trunc as the maximum depth. -/
def spec_integration_record (tan : ℚ → ℚ) (depth_trunc : ℚ)
    (cam : Camera) (rgb stored_depth : List (List ℚ)) :
    IntegrationRecord :=
  { rgbd :=
      { color := to_u8_image rgb,
        depth := stored_depth,
        depth_trunc := depth_trunc,
        depth_scale := 1,
        convert_rgb_to_intensity := false },
    intrinsic :=
      { width := cam.image_width,
        height := cam.image_height,
        cx := (cam.image_width : ℚ) / 2,
        cy := (cam.image_height : ℚ) / 2,
        fx := (cam.image_width : ℚ) / (2 * tan (cam.FoVx / 2)),
        fy := (cam.image_height : ℚ) / (2 * tan (cam.FoVy / 2)) },
    extrinsic := cam.world_view_transform.transpose }

/-- The bounded branch of the mesh-export loop as a function of the
parsed arguments: the script first runs the unconditional
`args.depth_trunc = 6` override, then calls extract_mesh_bounded with
voxel_size = args.voxel_size, sdf_trunc = 5 * args.voxel_size and
depth_trunc = args.depth_trunc, leaving mask_backgrond at its default
True. -/
def mesh_export_step {M : Type} (extract_fn : ScalableTSDFVolume → M)
    (tan : ℚ → ℚ) (a : ScriptArgs) (self : GEState) : M × GEState :=
  extract_mesh_bounded extract_fn tan
    (post_parse_override a).voxel_size
    (5 * (post_parse_override a).voxel_size)
    (post_parse_override a).depth_trunc
    true self

/-- Concrete parsed arguments for the witnesses, depth_trunc 3. -/
def argsA : ScriptArgs :=
  { voxel_size := 1/250, depth_trunc := 3, num_cluster := 1000,
    unbounded := false, mesh_res := 1024 }

/-- Concrete parsed arguments for the witnesses, differing from argsA
only in depth_trunc. -/
def argsB : ScriptArgs :=
  { voxel_size := 1/250, depth_trunc := 9, num_cluster := 1000,
    unbounded := false, mesh_res := 1024 }

/-! ## Claim theorems: script level -/

/-- C9: the depth truncation used for TSDF mesh extraction is independent
of the `--depth_trunc` command-line argument: two invocations whose
parsed arguments agree on voxel_size (in particular, invocations
differing only in depth_trunc) run the bounded mesh-export step
identically, and the value reaching the extract_mesh_bounded call site is
always 6, because `args.depth_trunc = 6` runs unconditionally right after
parsing. -/
theorem C9_depth_trunc_independent {M : Type}
    (extract_fn : ScalableTSDFVolume → M) (tan : ℚ → ℚ)
    (self : GEState) (a b : ScriptArgs)
    (hv : a.voxel_size = b.voxel_size) :
    mesh_export_step extract_fn tan a self
      = mesh_export_step extract_fn tan b self ∧
    mesh_call_depth_trunc a = 6 := by
  refine ⟨?_, rfl⟩
  rw [mesh_export_step, mesh_export_step, post_parse_override,
    post_parse_override]
  simp [hv]

/-- Closed instance of C9 on two argument records differing only in
depth_trunc. -/
theorem C9_depth_trunc_independent_witness :
    argsA.voxel_size = argsB.voxel_size ∧
    (mesh_export_step (fun v => v) (fun q => q) argsA selfA
        = mesh_export_step (fun v => v) (fun q => q) argsB selfA ∧
     mesh_call_depth_trunc argsA = 6) :=
  ⟨rfl,
   C9_depth_trunc_independent (fun v => v) (fun q => q) selfA argsA
     argsB rfl⟩

/-- C3 (code bug witness): the keyword `cluster_to_keep` used by the
mesh-export loop call `post_process_mesh(mesh, cluster_to_keep=...)` is
not among the parameter names of post_process_mesh, so the call raises a
TypeError instead of returning a post-processed mesh. -/
theorem C3_keyword_rejected :
    accepts_keyword post_process_mesh_param_names
      script_post_process_call_keyword = false := by
  decide

/-- C4 (code bug witness): GaussianExtractor defines no method named
extract_mesh_unbounded (the whole definition is commented out), so the
`--unbounded` branch of the mesh-export loop raises an AttributeError
rather than returning a mesh. -/
theorem C4_no_unbounded_method :
    gaussian_extractor_method_names.contains unbounded_branch_method_name
      = false := by
  decide

/-- C5 (code bug witness): every iteration of the mesh-export loop prints
the `mesh post processed saved at` message naming frame_i.ply, yet its
effect trace contains no triangle-mesh write at all: the
write_triangle_mesh calls are commented out, so no PLY file is produced
at the announced path. -/
theorem C5_announced_but_not_written (td isp msp : String) (i : ℕ) :
    (frame_save_effects td isp msp i).contains
      (.printMsg ("mesh post processed saved at " ++ td ++ "/frame_"
        ++ toString i ++ ".ply")) = true ∧
    (frame_save_effects td isp msp i).all
      (fun e => !e.isWriteMesh) = true := by
  constructor
  · simp [frame_save_effects, List.contains]
  · simp [frame_save_effects, ScriptEffect.isWriteMesh]

/-- C7: the assembled video is output_video.mp4 at 25 frames per second,
holding one frame per file of the mesh_shape directory, and for every
index k below that count the k-th appended frame is the image read from
the file named `str(k).zfill(5) + ".png"` in that directory. -/
theorem C7_video_assembly {Img : Type} (read_image : String → Img)
    (msp : String) (dir_files : List String) (k : ℕ) (d : Img)
    (hk : k < dir_files.length) :
    (assemble_video read_image msp dir_files).name = "output_video.mp4" ∧
    (assemble_video read_image msp dir_files).fps = 25 ∧
    (assemble_video read_image msp dir_files).frames.length
      = dir_files.length ∧
    (assemble_video read_image msp dir_files).frames.getD k d
      = read_image (msp ++ "/" ++ zfill 5 (toString k) ++ ".png") := by
  refine ⟨rfl, rfl, by simp [assemble_video], ?_⟩
  rw [assemble_video]
  rw [List.getD_eq_getElem _ d (by simpa using hk)]
  simp

/-- Closed instance of C7 at a concrete directory listing with two files,
checking frame 1. -/
theorem C7_video_assembly_witness :
    (assemble_video (fun s => s) "mesh_shape" ["a", "b"]).name
        = "output_video.mp4" ∧
    (assemble_video (fun s => s) "mesh_shape" ["a", "b"]).fps = 25 ∧
    (assemble_video (fun s => s) "mesh_shape" ["a", "b"]).frames.length
        = 2 ∧
    (assemble_video (fun s => s) "mesh_shape" ["a", "b"]).frames.getD 1 ""
        = "mesh_shape" ++ "/" ++ zfill 5 (toString 1) ++ ".png" :=
  C7_video_assembly (fun s => s) "mesh_shape" ["a", "b"] 1 ""
    (by decide)

/-! ## Reconstruction lemmas and claim theorems C2, C10 -/

/-- Closed form of the reconstruction loop: it appends, per camera in
input order, the rendered buffers to each accumulator and records each
render call in the trace. -/
theorem recon_loop_spec (rf : Camera → RenderResult)
    (nf : List (List ℚ) → List (List ℚ)) (l : List Camera) (s : GEState)
    (tr : List Camera) :
    recon_loop rf nf l (s, tr) =
      ({ s with
          rgbmaps := s.rgbmaps ++ l.map (fun c => (render_view rf nf c).rgb),
          depthmaps := s.depthmaps
            ++ l.map (fun c => (render_view rf nf c).depth),
          alphamaps := s.alphamaps
            ++ l.map (fun c => (render_view rf nf c).alpha),
          normals := s.normals
            ++ l.map (fun c => (render_view rf nf c).normal),
          depth_normals := s.depth_normals
            ++ l.map (fun c => (render_view rf nf c).depth_normal) },
        tr ++ l) := by
  induction l generalizing s tr with
  | nil => simp [recon_loop]
  | cons c cs ih => simp [recon_loop, recon_append, ih]

/-- torch.stack succeeds on a non-empty list and returns it unchanged. -/
theorem torch_stack_of_ne_nil {α : Type} (l : List α) (h : l ≠ []) :
    torch_stack l = some l := by
  cases l with
  | nil => exact absurd rfl h
  | cons x xs => rfl

/-- reconstruction on a non-empty camera list returns the state described
by recon_result, for any prior extractor state. -/
theorem reconstruction_some_spec (rf : Camera → RenderResult)
    (nf : List (List ℚ) → List (List ℚ)) (self : GEState)
    (cams : List Camera) (h : cams ≠ []) :
    reconstruction rf nf self cams = some (recon_result rf nf cams) := by
  cases cams with
  | nil => exact absurd rfl h
  | cons c cs =>
      simp only [reconstruction, GEState.clean, recon_loop_spec,
        cleanState, List.map_cons, List.nil_append, torch_stack]
      simp [recon_result]

/-- reconstruction on the empty camera list fails: torch.stack raises on
an empty tensor list. -/
theorem reconstruction_nil_none (rf : Camera → RenderResult)
    (nf : List (List ℚ) → List (List ℚ)) (self : GEState) :
    reconstruction rf nf self [] = none := rfl

/-- The trace of render calls is exactly the input camera list. -/
theorem reconstruction_trace_eq (rf : Camera → RenderResult)
    (nf : List (List ℚ) → List (List ℚ)) (cams : List Camera) :
    reconstruction_trace rf nf cams = cams := by
  rw [reconstruction_trace, recon_loop_spec]
  simp

/-- C2 (counterexample): on the empty camera list reconstruction does not
return stacked buffers at all: torch.stack of an empty list raises, so
the call fails instead of leaving stacked tensors of first dimension 0. -/
theorem C2_counterexample_empty_stack :
    reconstruction (fun _ => rrA) id cleanState [] = none := rfl

/-- C2 (amended): for every NON-EMPTY list of n cameras, reconstruction
discards all previously accumulated buffers (the result does not depend
on the prior state), renders each camera exactly once in input order (the
render-call trace equals the input list), and on return leaves
viewpoint_stack equal to the input list and rgbmaps, depthmaps, alphamaps
and depth_normals stacked along dimension 0 with first dimension n, the
i-th slice holding the buffers rendered from the i-th camera, and normals
as the list of n per-view normal buffers. -/
theorem C2_reconstruction_buffers (rf : Camera → RenderResult)
    (nf : List (List ℚ) → List (List ℚ)) (self : GEState)
    (cams : List Camera) (h : cams ≠ []) :
    ∃ out : GEState,
      reconstruction rf nf self cams = some out ∧
      (∀ self2 : GEState,
        reconstruction rf nf self2 cams = reconstruction rf nf self cams) ∧
      reconstruction_trace rf nf cams = cams ∧
      out.viewpoint_stack = cams ∧
      out.rgbmaps = cams.map (fun c => (render_view rf nf c).rgb) ∧
      out.depthmaps = cams.map (fun c => (render_view rf nf c).depth) ∧
      out.alphamaps = cams.map (fun c => (render_view rf nf c).alpha) ∧
      out.depth_normals
        = cams.map (fun c => (render_view rf nf c).depth_normal) ∧
      out.normals = cams.map (fun c => (render_view rf nf c).normal) ∧
      out.rgbmaps.length = cams.length := by
  refine ⟨recon_result rf nf cams, reconstruction_some_spec rf nf self cams h,
    ?_, reconstruction_trace_eq rf nf cams, rfl, rfl, rfl, rfl, rfl, rfl, ?_⟩
  · intro self2
    rw [reconstruction_some_spec rf nf self cams h,
      reconstruction_some_spec rf nf self2 cams h]
  · simp [recon_result]

/-- Closed instance of the amended C2 on a single concrete camera. -/
theorem C2_reconstruction_buffers_witness :
    [camA] ≠ [] ∧
    ∃ out : GEState,
      reconstruction (fun _ => rrA) id cleanState [camA] = some out ∧
      (∀ self2 : GEState,
        reconstruction (fun _ => rrA) id self2 [camA]
          = reconstruction (fun _ => rrA) id cleanState [camA]) ∧
      reconstruction_trace (fun _ => rrA) id [camA] = [camA] ∧
      out.viewpoint_stack = [camA] ∧
      out.rgbmaps
        = [camA].map (fun c => (render_view (fun _ => rrA) id c).rgb) ∧
      out.depthmaps
        = [camA].map (fun c => (render_view (fun _ => rrA) id c).depth) ∧
      out.alphamaps
        = [camA].map (fun c => (render_view (fun _ => rrA) id c).alpha) ∧
      out.depth_normals
        = [camA].map (fun c =>
            (render_view (fun _ => rrA) id c).depth_normal) ∧
      out.normals
        = [camA].map (fun c => (render_view (fun _ => rrA) id c).normal) ∧
      out.rgbmaps.length = [camA].length :=
  ⟨by simp,
   C2_reconstruction_buffers (fun _ => rrA) id cleanState [camA] (by simp)⟩

/-- C10: after every completed reconstruction call, every element of every
stored RGB map lies in the closed interval from 0 to 1, because the
rendered RGB channels are clamped to that range before accumulation. -/
theorem C10_rgbmaps_in_unit_interval (rf : Camera → RenderResult)
    (nf : List (List ℚ) → List (List ℚ)) (self : GEState)
    (cams : List Camera) (out : GEState)
    (h : reconstruction rf nf self cams = some out) :
    ∀ img ∈ out.rgbmaps, ∀ ch ∈ img, ∀ x ∈ ch, 0 ≤ x ∧ x ≤ 1 := by
  have hcams : cams ≠ [] := by
    intro hnil
    rw [hnil, reconstruction_nil_none] at h
    exact Option.noConfusion h
  rw [reconstruction_some_spec rf nf self cams hcams] at h
  have hout : out = recon_result rf nf cams := (Option.some_injective _ h).symm
  subst hout
  intro img himg ch hch x hx
  rcases List.mem_map.mp himg with ⟨c, _, hc⟩
  rw [render_view] at hc
  simp only at hc
  have hch2 : ch ∈ clamp_image ((rf c).render ++ (rf c).alpha) := by
    rw [← hc] at hch
    exact List.mem_of_mem_take hch
  rcases List.mem_map.mp hch2 with ⟨ch0, _, hch0⟩
  rw [← hch0] at hx
  rcases List.mem_map.mp hx with ⟨y, _, hy⟩
  rw [← hy, clamp01]
  constructor
  · exact le_min (le_max_right y 0) zero_le_one
  · exact min_le_right _ _

/-- Closed instance of C10: the clamped half pixel of the concrete render
result lies in the unit interval. -/
theorem C10_rgbmaps_witness : (0 : ℚ) ≤ 1/2 ∧ (1/2 : ℚ) ≤ 1 :=
  C10_rgbmaps_in_unit_interval (fun _ => rrA) id cleanState [camA]
    (recon_result (fun _ => rrA) id [camA])
    (reconstruction_some_spec (fun _ => rrA) id cleanState [camA]
      (by simp))
    [[1], [0], [1/2]]
    (by norm_num [recon_result, render_view, rrA, clamp_image, clamp01])
    [1/2] (by norm_num) (1/2) (by norm_num)


/-! ## TSDF extraction lemmas and claim theorems C1, C8 -/

/-- Closed form of the extract_mesh_bounded loop: it appends one
integration record per view in order and returns the masked depth maps. -/
theorem tsdf_loop_spec (tan : ℚ → ℚ) (dt : ℚ) (mb : Bool)
    (l : List (Camera × List (List ℚ) × List (List ℚ)))
    (vol : ScalableTSDFVolume) :
    tsdf_loop tan dt mb l vol =
      ({ vol with
          integrations := vol.integrations ++
              l.map (fun t => integration_record tan dt t.1 t.2.1
                (masked_depth mb t.1 t.2.2)) },
       l.map (fun t => masked_depth mb t.1 t.2.2)) := by
  induction l generalizing vol with
  | nil => simp [tsdf_loop]
  | cons t rest ih =>
      obtain ⟨cam, rgb, d⟩ := t
      simp [tsdf_loop, ScalableTSDFVolume.integrate, ih]

/-- Closed form of extract_mesh_bounded: the extracted mesh comes from
the volume fed with one record per view, and the state keeps the masked
depth maps. -/
theorem extract_mesh_bounded_eq {M : Type}
    (extract_fn : ScalableTSDFVolume → M) (tan : ℚ → ℚ)
    (vs sd dt : ℚ) (mb : Bool) (self : GEState) :
    extract_mesh_bounded extract_fn tan vs sd dt mb self =
      (extract_fn
        { voxel_length := vs, sdf_trunc := sd, color_type := .RGB8,
          integrations :=
            (self.viewpoint_stack.zip
              (self.rgbmaps.zip self.depthmaps)).map
              (fun t => integration_record tan dt t.1 t.2.1
                (masked_depth mb t.1 t.2.2)) },
       { self with
          depthmaps :=
            (self.viewpoint_stack.zip
                (self.rgbmaps.zip self.depthmaps)).map
              (fun t => masked_depth mb t.1 t.2.2) }) := by
  simp [extract_mesh_bounded, tsdf_loop_spec]

/-- C1: over a state whose buffers were accumulated for the viewpoint
stack, extract_mesh_bounded integrates, per view i in input order, the
i-th accumulated rgb map scaled to 8 bits and the i-th accumulated depth
map (the stored one, which the in-place masking may have updated) with
the pinhole intrinsics and transposed world-view extrinsics of the i-th
camera, into a single ScalableTSDFVolume built from voxel_size and
sdf_trunc with RGB8 color, using depth_trunc as the maximum depth, and
returns exactly the triangle mesh extracted from that volume; moreover
the integrated depth images are exactly the depth maps stored in the
state after the call. -/
theorem C1_bounded_fusion {M : Type}
    (extract_fn : ScalableTSDFVolume → M) (tan : ℚ → ℚ)
    (vs sd dt : ℚ) (mb : Bool) (self : GEState)
    (hr : self.rgbmaps.length = self.viewpoint_stack.length)
    (hd : self.depthmaps.length = self.viewpoint_stack.length) :
    ∃ vol : ScalableTSDFVolume,
      (extract_mesh_bounded extract_fn tan vs sd dt mb self).1
        = extract_fn vol ∧
      vol.voxel_length = vs ∧
      vol.sdf_trunc = sd ∧
      vol.color_type = .RGB8 ∧
      vol.integrations.length = self.viewpoint_stack.length ∧
      vol.integrations.map (fun r => r.rgbd.depth)
        = (extract_mesh_bounded extract_fn tan vs sd dt mb
            self).2.depthmaps ∧
      (∀ i, i < self.viewpoint_stack.length →
        vol.integrations.getD i default =
          spec_integration_record tan dt
            (self.viewpoint_stack.getD i default)
            (self.rgbmaps.getD i [])
            ((extract_mesh_bounded extract_fn tan vs sd dt mb
              self).2.depthmaps.getD i [])) := by
  have hpost : (extract_mesh_bounded extract_fn tan vs sd dt mb
      self).2.depthmaps =
      (self.viewpoint_stack.zip (self.rgbmaps.zip self.depthmaps)).map
        (fun t => masked_depth mb t.1 t.2.2) := by
    rw [extract_mesh_bounded_eq]
  have hzl : (self.viewpoint_stack.zip
      (self.rgbmaps.zip self.depthmaps)).length
      = self.viewpoint_stack.length := by
    simp [hr, hd]
  refine ⟨{ voxel_length := vs, sdf_trunc := sd, color_type := .RGB8,
            integrations :=
              (self.viewpoint_stack.zip
                (self.rgbmaps.zip self.depthmaps)).map
                (fun t => integration_record tan dt t.1 t.2.1
                  (masked_depth mb t.1 t.2.2)) },
    by rw [extract_mesh_bounded_eq], rfl, rfl, rfl, ?_, ?_, ?_⟩
  · rw [List.length_map, hzl]
  · rw [hpost, List.map_map]
    rfl
  · intro i hi
    have h1 : i < self.rgbmaps.length := by rw [hr]; exact hi
    have h2 : i < self.depthmaps.length := by rw [hd]; exact hi
    rw [hpost]
    simp [List.getD_eq_getElem, hi, h1, h2, List.getElem_zip,
      integration_record, spec_integration_record, cam_open3d]

/-- Closed instance of C1 on the concrete one-view state. -/
theorem C1_bounded_fusion_witness :
    selfA.rgbmaps.length = selfA.viewpoint_stack.length ∧
    selfA.depthmaps.length = selfA.viewpoint_stack.length ∧
    ∃ vol : ScalableTSDFVolume,
      (extract_mesh_bounded (fun v => v) (fun q => q) (1/250) (1/50) 6
          true selfA).1 = (fun v : ScalableTSDFVolume => v) vol ∧
      vol.voxel_length = 1/250 ∧
      vol.sdf_trunc = 1/50 ∧
      vol.color_type = .RGB8 ∧
      vol.integrations.length = selfA.viewpoint_stack.length ∧
      vol.integrations.map (fun r => r.rgbd.depth)
        = (extract_mesh_bounded (fun v => v) (fun q => q) (1/250) (1/50)
            6 true selfA).2.depthmaps ∧
      (∀ i, i < selfA.viewpoint_stack.length →
        vol.integrations.getD i default =
          spec_integration_record (fun q => q) 6
            (selfA.viewpoint_stack.getD i default)
            (selfA.rgbmaps.getD i [])
            ((extract_mesh_bounded (fun v => v) (fun q => q) (1/250)
              (1/50) 6 true selfA).2.depthmaps.getD i [])) :=
  ⟨rfl, rfl,
   C1_bounded_fusion (fun v => v) (fun q => q) (1/250) (1/50) 6 true
     selfA rfl rfl⟩

/-- Pixelwise description of the in-place masking: a depth value with
mask below one half becomes 0, any other depth value is kept. -/
theorem mask_depth_pixel (mask d : List (List ℚ)) (c j : ℕ)
    (hc : c < mask.length) (hcd : c < d.length)
    (hj : j < (mask.getD c []).length)
    (hjd : j < (d.getD c []).length) :
    ((mask_depth mask d).getD c []).getD j 0 =
      if (mask.getD c []).getD j 0 < 1/2 then 0
      else (d.getD c []).getD j 0 := by
  have hzc : c < (List.zipWith
      (fun mch dch => List.zipWith mask_pixel mch dch) mask d).length := by
    rw [List.length_zipWith]
    exact lt_min hc hcd
  rw [mask_depth, List.getD_eq_getElem _ _ hzc, List.getElem_zipWith]
  rw [List.getD_eq_getElem mask _ hc] at hj ⊢
  rw [List.getD_eq_getElem d _ hcd] at hjd ⊢
  have hzj : j < (List.zipWith mask_pixel mask[c] d[c]).length := by
    rw [List.length_zipWith]
    exact lt_min hj hjd
  rw [List.getD_eq_getElem _ _ hzj, List.getElem_zipWith,
    List.getD_eq_getElem _ _ hj, List.getD_eq_getElem _ _ hjd,
    mask_pixel]

/-- C8 (amended): extract_mesh_bounded with mask_backgrond set updates
the stored depth maps in place: for every view whose camera carries a
gt_alpha_mask the stored depth map becomes its masked version (pixels
with mask below one half set to 0, the rest kept), so the accumulated
depth buffers after the call may differ from those reconstruction
produced, while views without a mask keep their depth map and the
rgbmaps, alphamaps, normals and depth_normals buffers are unchanged. -/
theorem C8_bounded_masks_state {M : Type}
    (extract_fn : ScalableTSDFVolume → M) (tan : ℚ → ℚ)
    (vs sd dt : ℚ) (self : GEState)
    (hr : self.rgbmaps.length = self.viewpoint_stack.length)
    (hd : self.depthmaps.length = self.viewpoint_stack.length) :
    (extract_mesh_bounded extract_fn tan vs sd dt true self).2.rgbmaps
      = self.rgbmaps ∧
    (extract_mesh_bounded extract_fn tan vs sd dt true self).2.alphamaps
      = self.alphamaps ∧
    (extract_mesh_bounded extract_fn tan vs sd dt true self).2.normals
      = self.normals ∧
    (extract_mesh_bounded extract_fn tan vs sd dt true
        self).2.depth_normals = self.depth_normals ∧
    (extract_mesh_bounded extract_fn tan vs sd dt true
        self).2.viewpoint_stack = self.viewpoint_stack ∧
    (extract_mesh_bounded extract_fn tan vs sd dt true
        self).2.depthmaps.length = self.depthmaps.length ∧
    (∀ i, i < self.viewpoint_stack.length →
      ∀ m, (self.viewpoint_stack.getD i default).gt_alpha_mask = some m →
      (extract_mesh_bounded extract_fn tan vs sd dt true
          self).2.depthmaps.getD i []
        = mask_depth m (self.depthmaps.getD i [])) ∧
    (∀ i, i < self.viewpoint_stack.length →
      (self.viewpoint_stack.getD i default).gt_alpha_mask = none →
      (extract_mesh_bounded extract_fn tan vs sd dt true
          self).2.depthmaps.getD i []
        = self.depthmaps.getD i []) := by
  have hpost : (extract_mesh_bounded extract_fn tan vs sd dt true
      self).2.depthmaps =
      (self.viewpoint_stack.zip (self.rgbmaps.zip self.depthmaps)).map
        (fun t => masked_depth true t.1 t.2.2) := by
    rw [extract_mesh_bounded_eq]
  refine ⟨by rw [extract_mesh_bounded_eq], by rw [extract_mesh_bounded_eq],
    by rw [extract_mesh_bounded_eq], by rw [extract_mesh_bounded_eq],
    by rw [extract_mesh_bounded_eq], ?_, ?_, ?_⟩
  · rw [hpost, List.length_map, List.length_zip, List.length_zip, hr, hd]
    omega
  · intro i hi m hm
    have h1 : i < self.rgbmaps.length := by rw [hr]; exact hi
    have h2 : i < self.depthmaps.length := by rw [hd]; exact hi
    rw [List.getD_eq_getElem _ _ hi] at hm
    rw [hpost]
    simp [List.getD_eq_getElem, hi, h1, h2, List.getElem_zip,
      masked_depth, hm]
  · intro i hi hm
    have h1 : i < self.rgbmaps.length := by rw [hr]; exact hi
    have h2 : i < self.depthmaps.length := by rw [hd]; exact hi
    rw [List.getD_eq_getElem _ _ hi] at hm
    rw [hpost]
    simp [List.getD_eq_getElem, hi, h1, h2, List.getElem_zip,
      masked_depth, hm]

/-- C8 (counterexample to the unqualified difference claim): on the
concrete one-view state produced by reconstruction, whose camera does
carry a gt_alpha_mask (everywhere 1, so no pixel is below one half), the
stored depth buffers after extract_mesh_bounded with masking enabled are
identical to those reconstruction produced. -/
theorem C8_counterexample_depth_unchanged :
    reconstruction (fun _ => rrA) id cleanState [camA] = some selfA ∧
    camA.gt_alpha_mask = some [[1]] ∧
    (extract_mesh_bounded (fun v => v) (fun q => q) (1/250) (1/50) 6
        true selfA).2.depthmaps = selfA.depthmaps := by
  refine ⟨reconstruction_some_spec (fun _ => rrA) id cleanState [camA]
    (by simp), rfl, ?_⟩
  rw [extract_mesh_bounded_eq]
  norm_num [selfA, recon_result, render_view, rrA, camA, masked_depth,
    mask_depth, mask_pixel]

/-- Closed instance of the amended C8 on the concrete one-view state. -/
theorem C8_bounded_masks_state_witness :
    selfA.rgbmaps.length = selfA.viewpoint_stack.length ∧
    selfA.depthmaps.length = selfA.viewpoint_stack.length ∧
    ((extract_mesh_bounded (fun v => v) (fun q => q) (1/250) (1/50) 6
        true selfA).2.rgbmaps = selfA.rgbmaps ∧
     (extract_mesh_bounded (fun v => v) (fun q => q) (1/250) (1/50) 6
        true selfA).2.alphamaps = selfA.alphamaps ∧
     (extract_mesh_bounded (fun v => v) (fun q => q) (1/250) (1/50) 6
        true selfA).2.normals = selfA.normals ∧
     (extract_mesh_bounded (fun v => v) (fun q => q) (1/250) (1/50) 6
        true selfA).2.depth_normals = selfA.depth_normals ∧
     (extract_mesh_bounded (fun v => v) (fun q => q) (1/250) (1/50) 6
        true selfA).2.viewpoint_stack = selfA.viewpoint_stack ∧
     (extract_mesh_bounded (fun v => v) (fun q => q) (1/250) (1/50) 6
        true selfA).2.depthmaps.length = selfA.depthmaps.length ∧
     (∀ i, i < selfA.viewpoint_stack.length →
       ∀ m, (selfA.viewpoint_stack.getD i default).gt_alpha_mask = some m →
       (extract_mesh_bounded (fun v => v) (fun q => q) (1/250) (1/50) 6
           true selfA).2.depthmaps.getD i []
         = mask_depth m (selfA.depthmaps.getD i [])) ∧
     (∀ i, i < selfA.viewpoint_stack.length →
       (selfA.viewpoint_stack.getD i default).gt_alpha_mask = none →
       (extract_mesh_bounded (fun v => v) (fun q => q) (1/250) (1/50) 6
           true selfA).2.depthmaps.getD i []
         = selfA.depthmaps.getD i [])) :=
  ⟨rfl, rfl,
   C8_bounded_masks_state (fun v => v) (fun q => q) (1/250) (1/50) 6
     selfA rfl rfl⟩

/-! ## Mesh post-processing lemmas and claim theorem C6 -/

/-- remove_triangles_by_mask on a mask computed elementwise keeps exactly
the elements whose mask entry is false. -/
theorem remove_triangles_by_mask_map {α β : Type} (tris : List α)
    (cl : List β) (f : β → Bool) (h : cl.length = tris.length) :
    remove_triangles_by_mask tris (cl.map f)
      = ((tris.zip cl).filter (fun p => !f p.2)).map Prod.fst := by
  induction tris generalizing cl with
  | nil => simp [remove_triangles_by_mask]
  | cons t ts ih =>
      cases cl with
      | nil => exact absurd h (by simp)
      | cons c cs =>
          have h2 : cs.length = ts.length := by simpa using h
          have ihc := ih cs h2
          simp only [remove_triangles_by_mask, List.map_cons,
            List.zip_cons_cons, List.filter_cons] at ihc ⊢
          cases hfc : f c <;> simp [hfc, ihc]

/-- C6: under the contract of the external clustering call (one cluster
id per triangle, and the count array giving the number of triangles of
each cluster), post_process_mesh removes exactly the triangles whose
connected-triangle cluster has fewer than the threshold number of
triangles, then applies the unreferenced-vertex and degenerate-triangle
removal steps, and leaves the mesh object passed in unmodified. -/
theorem C6_post_process_filters_small_clusters
    (cluster_fn : List (ℕ × ℕ × ℕ) → List ℕ × List ℕ)
    (ru rd : TriangleMesh → TriangleMesh) (mesh : TriangleMesh) (k : ℕ)
    (hlen : (cluster_fn mesh.triangles).1.length = mesh.triangles.length)
    (hcount : ∀ c ∈ (cluster_fn mesh.triangles).1,
      (cluster_fn mesh.triangles).2.getD c 0
        = (cluster_fn mesh.triangles).1.count c) :
    (post_process_mesh cluster_fn ru rd mesh k).1 = mesh ∧
    (post_process_mesh cluster_fn ru rd mesh k).2 =
      rd (ru { mesh with
               triangles :=
                 ((mesh.triangles.zip (cluster_fn mesh.triangles).1).filter
                   (fun p =>
                     k ≤ (cluster_fn mesh.triangles).1.count p.2)).map
                   Prod.fst }) := by
  refine ⟨rfl, ?_⟩
  simp only [post_process_mesh]
  have hmask : remove_triangles_by_mask mesh.triangles
      ((cluster_fn mesh.triangles).1.map (fun c =>
        decide ((cluster_fn mesh.triangles).2.getD c 0 < k)))
      = ((mesh.triangles.zip (cluster_fn mesh.triangles).1).filter
          (fun p => k ≤ (cluster_fn mesh.triangles).1.count p.2)).map
          Prod.fst := by
    rw [remove_triangles_by_mask_map _ _ _ hlen]
    congr 1
    apply List.filter_congr
    intro p hp
    have hc : p.2 ∈ (cluster_fn mesh.triangles).1 :=
      (List.of_mem_zip hp).2
    rw [hcount p.2 hc]
    rcases Nat.lt_or_ge ((cluster_fn mesh.triangles).1.count p.2) k with
      hlt | hge
    · simp [hlt, not_le.mpr hlt]
    · simp [hge, not_lt.mpr hge]
  rw [hmask]

/-- Closed instance of C6: a two-triangle single-cluster mesh against
threshold 3 loses both triangles. -/
theorem C6_post_process_witness :
    (cfW meshW.triangles).1.length = meshW.triangles.length ∧
    (∀ c ∈ (cfW meshW.triangles).1,
      (cfW meshW.triangles).2.getD c 0
        = (cfW meshW.triangles).1.count c) ∧
    ((post_process_mesh cfW id id meshW 3).1 = meshW ∧
     (post_process_mesh cfW id id meshW 3).2 =
       id (id { meshW with
                triangles :=
                  ((meshW.triangles.zip (cfW meshW.triangles).1).filter
                    (fun p =>
                      3 ≤ (cfW meshW.triangles).1.count p.2)).map
                    Prod.fst })) :=
  ⟨rfl, by decide,
   C6_post_process_filters_small_clusters cfW id id meshW 3 rfl
     (by decide)⟩
